import Mathlib

set_option autoImplicit false
set_option maxHeartbeats 1000000

/-
Verification of the hermes-rs webhook relay (src/main.rs, src/lib.rs,
src/config.rs) against its natural-language specification.

The request dispatch pipeline of `handle_webhook` is embedded as a pure
function over an oracle `Env` that stands for the external collaborators
(the serde_json parser, the handlebars renderer, the reqwest HTTP client).
Observable effects (invoking the renderer, issuing the outbound request)
are returned in a `Trace` so that claims of the form "X is never invoked"
are statable.
-/

namespace Hermes

/-- JSON values, mirroring serde_json::Value. Number contents are modelled
as integers; no claim depends on numeric representation details. -/
inductive JValue where
  | null
  | bool (b : Bool)
  | num (n : Int)
  | str (s : String)
  | arr (elems : List JValue)
  | obj (fields : List (String × JValue))

/-- Embedding of `json_to_template_data` from src/lib.rs (the identical copy
in src/main.rs is shadowed by the lib version for the admin tool; both have
this exact body): a JSON object yields its own field map, any other value is
wrapped into a one-entry map under the key "data". -/
def json_to_template_data : JValue → List (String × JValue)
  | .obj m => m
  | v => [("data", v)]

/-- Association-list model of std::collections::HashMap lookup: the map is
kept with unique keys, so first match is the entry. -/
def hmGet {α : Type} : List (String × α) → String → Option α
  | [], _ => none
  | (k, v) :: rest, e => if k = e then some v else hmGet rest e

/-- Association-list model of std::collections::HashMap::insert: replace the
value when the key is present, append otherwise. -/
def hmInsert {α : Type} : List (String × α) → String → α → List (String × α)
  | [], k, v => [(k, v)]
  | (k', v') :: rest, k, v =>
    if k' = k then (k, v) :: rest else (k', v') :: hmInsert rest k v

/-- RetryConfig from src/config.rs (declared in the schema, inert in the
dispatch path). -/
structure RetryConfig where
  attempts : Nat
  delay_ms : Nat
  backoff_multiplier : Float

/-- Target from src/config.rs. -/
structure Target where
  url : String
  method : String
  headers : List (String × String)
  timeout_seconds : Option Nat

/-- WebhookRegister from src/config.rs. -/
structure WebhookRegister where
  endpoint : String
  method : String
  target : Target
  template : String
  retry_config : Option RetryConfig

/-- AppState from src/main.rs: the endpoint registry plus the handlebars
template store (template name to template source). The HTTP client and the
raw Config are carried by the Rust struct but consulted only through the
oracle `Env` here. -/
structure AppState where
  registers : List (String × WebhookRegister)
  handlebars : List (String × String)

/-- The loop body of `AppState::new` (src/main.rs lines 46-55): for each
register, at enumeration index `index`, register its template source under
the generated name "template_index" and insert into the endpoint map a copy
of the register whose `template` field is replaced by that name. Failure of
`register_template_string` (a startup panic on malformed template syntax) is
external to this model: the handlebars store here records the source text. -/
def buildState (st : AppState) (index : Nat) : List WebhookRegister → AppState
  | [] => st
  | register :: rest =>
    let template_name := "template_" ++ toString index
    let register_with_template := { register with template := template_name }
    buildState
      { registers := hmInsert st.registers register.endpoint register_with_template,
        handlebars := hmInsert st.handlebars template_name register.template }
      (index + 1) rest

/-- AppState::new from src/main.rs: fold the configured registers into an
empty state starting at index 0. -/
def AppState.new (registers : List WebhookRegister) : AppState :=
  buildState ⟨[], []⟩ 0 registers

/-- Specification-side helper: the last (highest-index) register in the list
whose endpoint equals `e`, together with its enumeration index (counting
from `i`). -/
def findLastIdx (e : String) : List WebhookRegister → Nat → Option (Nat × WebhookRegister)
  | [], _ => none
  | r :: rest, i =>
    match findLastIdx e rest (i + 1) with
    | some p => some p
    | none => if r.endpoint = e then some (i, r) else none

/-- The renaming applied to a register when stored in the registry: its
`template` field becomes the generated template name of its index. -/
def withTemplateName (p : Nat × WebhookRegister) : WebhookRegister :=
  { p.2 with template := "template_" ++ toString p.1 }

theorem hmGet_hmInsert_self {α : Type} (m : List (String × α)) (k : String) (v : α) :
    hmGet (hmInsert m k v) k = some v := by
  induction m with
  | nil => simp [hmInsert, hmGet]
  | cons p rest ih =>
    obtain ⟨k', v'⟩ := p
    by_cases h : k' = k <;> simp [hmInsert, hmGet, h, ih]

theorem hmGet_hmInsert_ne {α : Type} (m : List (String × α)) (k e : String) (v : α)
    (h : k ≠ e) : hmGet (hmInsert m k v) e = hmGet m e := by
  induction m with
  | nil => simp [hmInsert, hmGet, h]
  | cons p rest ih =>
    obtain ⟨k', v'⟩ := p
    by_cases hk : k' = k
    · subst hk
      simp [hmInsert, hmGet, h]
    · simp [hmInsert, hmGet, hk, ih]

theorem buildState_get (regs : List WebhookRegister) (st : AppState) (i : Nat) (e : String) :
    hmGet (buildState st i regs).registers e =
      match findLastIdx e regs i with
      | some p => some (withTemplateName p)
      | none => hmGet st.registers e := by
  induction regs generalizing st i with
  | nil => simp [buildState, findLastIdx]
  | cons r rest ih =>
    simp only [buildState, findLastIdx]
    rw [ih]
    cases hfl : findLastIdx e rest (i + 1) with
    | some p => simp
    | none =>
      by_cases h : r.endpoint = e
      · subst h
        simp [hmGet_hmInsert_self, withTemplateName]
      · simp [h, hmGet_hmInsert_ne _ _ _ _ h]

theorem findLastIdx_endpoint (e : String) (regs : List WebhookRegister) (i : Nat)
    (p : Nat × WebhookRegister) (h : findLastIdx e regs i = some p) :
    p.2.endpoint = e := by
  induction regs generalizing i with
  | nil => simp [findLastIdx] at h
  | cons r rest ih =>
    simp only [findLastIdx] at h
    cases hfl : findLastIdx e rest (i + 1) with
    | some q =>
      rw [hfl] at h
      obtain rfl : q = p := by simpa using h
      exact ih (i + 1) hfl
    | none =>
      rw [hfl] at h
      by_cases hr : r.endpoint = e
      · simp [hr] at h
        subst h
        exact hr
      · simp [hr] at h

theorem findLastIdx_isSome (e : String) (regs : List WebhookRegister) (i : Nat) :
    (findLastIdx e regs i).isSome ↔ ∃ r ∈ regs, r.endpoint = e := by
  induction regs generalizing i with
  | nil => simp [findLastIdx]
  | cons r rest ih =>
    simp only [findLastIdx]
    cases hfl : findLastIdx e rest (i + 1) with
    | some q =>
      have : ∃ x ∈ rest, x.endpoint = e := (ih (i + 1)).mp (by simp [hfl])
      obtain ⟨x, hx, hxe⟩ := this
      simp only [Option.isSome_some, true_iff]
      exact ⟨x, List.mem_cons_of_mem _ hx, hxe⟩
    | none =>
      have hrest : ¬ ∃ x ∈ rest, x.endpoint = e := by
        rw [← ih (i + 1)]
        simp [hfl]
      by_cases hr : r.endpoint = e
      · simp [hr]
      · simp only [hr, if_false, Option.isSome_none, Bool.false_eq_true, false_iff]
        rintro ⟨x, hx, he⟩
        rcases List.mem_cons.mp hx with rfl | hmem
        · exact hr he
        · exact hrest ⟨x, hmem, he⟩

/-- C7: registry construction never fails on duplicate endpoints; the entry
looked up for any endpoint is the last (highest-index) registration with
that endpoint, renamed to its generated template name, so the later
registration silently overwrites the earlier; and an endpoint has an entry
iff some configured registration carries that endpoint string, i.e. the key
set is the set of distinct endpoint strings. The two-register duplicate
instance is stated explicitly. -/
theorem registry_last_wins :
    (∀ (regs : List WebhookRegister) (e : String),
      hmGet (AppState.new regs).registers e = (findLastIdx e regs 0).map withTemplateName) ∧
    (∀ (regs : List WebhookRegister) (e : String),
      (hmGet (AppState.new regs).registers e).isSome ↔ e ∈ regs.map WebhookRegister.endpoint) ∧
    (∀ r1 r2 : WebhookRegister, r1.endpoint = r2.endpoint →
      hmGet (AppState.new [r1, r2]).registers r1.endpoint =
        some { r2 with template := "template_" ++ toString 1 }) := by
  refine ⟨?_, ?_, ?_⟩
  · intro regs e
    rw [AppState.new, buildState_get]
    cases hfl : findLastIdx e regs 0 <;> simp [hmGet]
  · intro regs e
    rw [AppState.new, buildState_get]
    cases hfl : findLastIdx e regs 0 with
    | some p =>
      have : ∃ r ∈ regs, r.endpoint = e := (findLastIdx_isSome e regs 0).mp (by simp [hfl])
      obtain ⟨r, hr, hre⟩ := this
      simpa using ⟨r, hr, hre⟩
    | none =>
      have : ¬ ∃ r ∈ regs, r.endpoint = e := by
        rw [← findLastIdx_isSome e regs 0]
        simp [hfl]
      simp only [hmGet, Option.isSome_none, Bool.false_eq_true, false_iff]
      rw [List.mem_map]
      rintro ⟨r, hr, hre⟩
      exact this ⟨r, hr, hre⟩
  · intro r1 r2 h12
    rw [AppState.new, buildState_get]
    simp [findLastIdx, ← h12, withTemplateName]

/-- C3: json_to_template_data returns the field map itself on objects and
the one-entry wrapping under "data" on every non-object value, in particular
on the number 42 and the array 1,2,3; the value handed to render is thereby
always a field map (an object). -/
theorem json_to_template_data_spec :
    (∀ m : List (String × JValue), json_to_template_data (.obj m) = m) ∧
    (∀ v : JValue, (∀ m, v ≠ .obj m) → json_to_template_data v = [("data", v)]) ∧
    json_to_template_data (.num 42) = [("data", .num 42)] ∧
    json_to_template_data (.arr [.num 1, .num 2, .num 3]) =
      [("data", .arr [.num 1, .num 2, .num 3])] := by
  refine ⟨fun _ => rfl, ?_, rfl, rfl⟩
  intro v hv
  cases v with
  | obj m => exact absurd rfl (hv m)
  | null => rfl
  | bool b => rfl
  | num n => rfl
  | str s => rfl
  | arr xs => rfl

/-- Witness for C3 at a concrete non-object input. -/
theorem json_to_template_data_spec_witness :
    json_to_template_data (.str "x") = [("data", .str "x")] :=
  json_to_template_data_spec.2.1 (.str "x") (fun _ h => JValue.noConfusion h)

/-- The upstream response as seen by the handler: reqwest::Response. Its
status code is carried but never consulted by the dispatch path; `text` is
the outcome of reading the body (`response.text().await`), which can fail. -/
structure UpstreamResponse where
  status : Nat
  text : Except String String

/-- The outbound HTTP request assembled by the handler: the source's five
verb-specific builder arms differ only in the verb, so the builder is
collapsed into a `method` field; `.header("Content-Type", "application/json")`
and `.json(body)` give the headers and body fields. -/
structure OutboundRequest where
  method : String
  url : String
  headers : List (String × String)
  body : JValue

/-- Oracle for the external collaborators used per request:
serde_json::from_str, Handlebars::render (by registered template name), and
the reqwest send step. -/
structure Env where
  parseJson : String → Except String JValue
  render : String → List (String × JValue) → Except String String
  send : OutboundRequest → Except String UpstreamResponse

/-- ErrorResponse from src/main.rs; serialized on the wire as the JSON
object with single field "error". -/
structure ErrorResponse where
  error : String

/-- Outcome of handle_webhook: Ok(Json<Value>) is HTTP 200 with the given
JSON body; Err is the given status code with an ErrorResponse body. -/
inductive HandlerResult where
  | ok (body : JValue)
  | err (status : Nat) (body : ErrorResponse)

/-- HTTP status code of a handler outcome (Ok responses are 200). -/
def HandlerResult.statusCode : HandlerResult → Nat
  | .ok _ => 200
  | .err s _ => s

/-- Observable effects of one handler run: whether (and with what arguments)
the template renderer was invoked, and whether (and with what request) the
outbound send was issued. -/
structure Trace where
  rendered : Option (String × List (String × JValue))
  sent : Option OutboundRequest

/-- Rust str::to_uppercase, modelled character-wise (the configured verbs
and the supported verb set are ASCII; Unicode special casing is outside the
claims). -/
def to_uppercase (s : String) : String :=
  ⟨s.data.map Char.toUpper⟩

/-- Embedding of handle_webhook (src/main.rs lines 72-182), step by step:
prepend "/" to the captured wildcard path; exact-match lookup in the
registry (miss gives 404 "Endpoint not found"); parse the raw body as JSON
(failure gives 400 with the parser message); build template data via
json_to_template_data; render the register's template (failure gives 500
"Template rendering failed"); re-parse the rendered string as JSON (failure
gives 500 "Rendered template is not valid JSON"); uppercase the configured
target method and match it against the five supported verbs (anything else
gives 500 "Unsupported HTTP method" without sending); send the request with
the Content-Type header and the validated JSON body (transport failure gives
500 "Failed to send request to target"); read the response text (failure
gives 500 "Failed to read response"); parse the text as JSON or fall back to
wrapping it as a JSON string; answer 200 with the success envelope. -/
def handle_webhook (env : Env) (state : AppState) (path : String) (body : String) :
    HandlerResult × Trace :=
  let endpoint := "/" ++ path
  match hmGet state.registers endpoint with
  | none => (.err 404 ⟨"Endpoint not found"⟩, ⟨none, none⟩)
  | some register =>
    match env.parseJson body with
    | .error e => (.err 400 ⟨"Invalid JSON: " ++ e⟩, ⟨none, none⟩)
    | .ok request_data =>
      let template_data := json_to_template_data request_data
      match env.render register.template template_data with
      | .error e =>
        (.err 500 ⟨"Template rendering failed: " ++ e⟩,
         ⟨some (register.template, template_data), none⟩)
      | .ok rendered_payload =>
        match env.parseJson rendered_payload with
        | .error e =>
          (.err 500 ⟨"Rendered template is not valid JSON: " ++ e⟩,
           ⟨some (register.template, template_data), none⟩)
        | .ok payload_json =>
          let method := to_uppercase register.target.method
          if method = "GET" ∨ method = "POST" ∨ method = "PUT" ∨
              method = "DELETE" ∨ method = "PATCH" then
            let req : OutboundRequest :=
              { method := method, url := register.target.url,
                headers := [("Content-Type", "application/json")],
                body := payload_json }
            match env.send req with
            | .error e =>
              (.err 500 ⟨"Failed to send request to target: " ++ e⟩,
               ⟨some (register.template, template_data), some req⟩)
            | .ok response =>
              match response.text with
              | .error e =>
                (.err 500 ⟨"Failed to read response: " ++ e⟩,
                 ⟨some (register.template, template_data), some req⟩)
              | .ok response_text =>
                let response_json :=
                  match env.parseJson response_text with
                  | .ok v => v
                  | .error _ => .str response_text
                (.ok (.obj [("status", .str "success"),
                            ("target_response", response_json)]),
                 ⟨some (register.template, template_data), some req⟩)
          else
            (.err 500 ⟨"Unsupported HTTP method: " ++ method⟩,
             ⟨some (register.template, template_data), none⟩)

/-- C5: a request whose prefixed path has no exact-match entry in the
registry answers 404 with the error body "Endpoint not found", whatever the
request body, and nothing else happens (no render, no send). -/
theorem endpoint_not_found_404 (env : Env) (st : AppState) (path body : String)
    (h : hmGet st.registers ("/" ++ path) = none) :
    handle_webhook env st path body = (.err 404 ⟨"Endpoint not found"⟩, ⟨none, none⟩) := by
  simp only [handle_webhook, h]

/-- A concrete environment every external call of which fails; used only by
witness theorems. -/
def envAllFail : Env :=
  ⟨fun _ => .error "no", fun _ _ => .error "no", fun _ => .error "no"⟩

/-- Witness for C5: empty registry, path "x". -/
theorem endpoint_not_found_404_witness :
    handle_webhook envAllFail (AppState.new []) "x" "whatever" =
      (.err 404 ⟨"Endpoint not found"⟩, ⟨none, none⟩) :=
  endpoint_not_found_404 envAllFail (AppState.new []) "x" "whatever" rfl

/-- C6: a request to a registered endpoint whose raw body fails to parse as
JSON answers 400 with the parser's message appended to "Invalid JSON: ", and
the trace records that the renderer was never invoked. -/
theorem invalid_json_400 (env : Env) (st : AppState) (path body : String)
    (register : WebhookRegister) (e : String)
    (hreg : hmGet st.registers ("/" ++ path) = some register)
    (hparse : env.parseJson body = .error e) :
    handle_webhook env st path body =
      (.err 400 ⟨"Invalid JSON: " ++ e⟩, ⟨none, none⟩) := by
  simp only [handle_webhook, hreg, hparse]

/-- A concrete registered rule used by witness theorems: endpoint "/a",
lower-case configured target method "post". -/
def regA : WebhookRegister :=
  { endpoint := "/a", method := "POST",
    target := { url := "http://t", method := "post", headers := [],
                timeout_seconds := none },
    template := "T", retry_config := none }

/-- Witness for C6: one registered endpoint, a parser that rejects the body. -/
theorem invalid_json_400_witness :
    handle_webhook envAllFail (AppState.new [regA]) "a" "not json" =
      (.err 400 ⟨"Invalid JSON: no"⟩, ⟨none, none⟩) :=
  invalid_json_400 envAllFail (AppState.new [regA]) "a" "not json"
    { regA with template := "template_0" } "no" rfl rfl

/-- C2: once the pipeline reaches method selection, the verb is chosen by a
case-insensitive (uppercasing) match: when the uppercased configured method
is outside the five supported verbs the handler answers 500 with the
"Unsupported HTTP method" error and the trace shows nothing was sent; when
it is inside, an outbound request is issued and carries exactly that
uppercased verb. -/
theorem unsupported_method_500 (env : Env) (st : AppState) (path body : String)
    (register : WebhookRegister) (d : JValue) (rp : String) (pj : JValue)
    (hreg : hmGet st.registers ("/" ++ path) = some register)
    (hparse : env.parseJson body = .ok d)
    (hrender : env.render register.template (json_to_template_data d) = .ok rp)
    (hvalid : env.parseJson rp = .ok pj) :
    (¬ (to_uppercase register.target.method = "GET" ∨
        to_uppercase register.target.method = "POST" ∨
        to_uppercase register.target.method = "PUT" ∨
        to_uppercase register.target.method = "DELETE" ∨
        to_uppercase register.target.method = "PATCH") →
      handle_webhook env st path body =
        (.err 500 ⟨"Unsupported HTTP method: " ++ to_uppercase register.target.method⟩,
         ⟨some (register.template, json_to_template_data d), none⟩)) ∧
    ((to_uppercase register.target.method = "GET" ∨
      to_uppercase register.target.method = "POST" ∨
      to_uppercase register.target.method = "PUT" ∨
      to_uppercase register.target.method = "DELETE" ∨
      to_uppercase register.target.method = "PATCH") →
      (handle_webhook env st path body).2.sent =
        some ⟨to_uppercase register.target.method, register.target.url,
              [("Content-Type", "application/json")], pj⟩) := by
  constructor
  · intro hM
    simp only [handle_webhook, hreg, hparse, hrender, hvalid, if_neg hM]
  · intro hM
    simp only [handle_webhook, hreg, hparse, hrender, hvalid, if_pos hM]
    cases hsend : env.send ⟨to_uppercase register.target.method, register.target.url,
        [("Content-Type", "application/json")], pj⟩ with
    | error e => simp [hsend]
    | ok response =>
      cases htext : response.text with
      | error e => simp [hsend, htext]
      | ok t => simp [hsend, htext]

/-- A concrete environment whose parser accepts everything as the empty
object, whose renderer produces "1", and whose send succeeds with body text
"done"; used only by witness theorems. -/
def envOk : Env :=
  { parseJson := fun _ => .ok (.obj []),
    render := fun _ _ => .ok "1",
    send := fun _ => .ok ⟨200, .ok "done"⟩ }

/-- A concrete rule whose configured target method "BREW" is outside the
supported verb set; used only by witness theorems. -/
def regBrew : WebhookRegister :=
  { endpoint := "/b", method := "POST",
    target := { url := "http://t", method := "BREW", headers := [],
                timeout_seconds := none },
    template := "T", retry_config := none }

/-- Witness for C2: the unsupported configured verb "BREW" yields the 500
with nothing sent. -/
theorem unsupported_method_500_witness :
    handle_webhook envOk (AppState.new [regBrew]) "b" "42" =
      (.err 500 ⟨"Unsupported HTTP method: " ++ to_uppercase "BREW"⟩,
       ⟨some ("template_0", json_to_template_data (.obj [])), none⟩) :=
  (unsupported_method_500 envOk (AppState.new [regBrew]) "b" "42"
    { regBrew with template := "template_0" } (.obj []) "1" (.obj [])
    rfl rfl rfl rfl).1 (by decide)

theorem append_ne_of_data_get (n : Nat) (c d : Char) (s t u v : String)
    (hs : s.data.get? n = some c) (ht : t.data.get? n = some d) (hcd : c ≠ d) :
    s ++ u ≠ t ++ v := by
  intro h
  have hls : n < s.data.length := (List.get?_eq_some.mp hs).1
  have hlt : n < t.data.length := (List.get?_eq_some.mp ht).1
  have h1 : (s ++ u).data.get? n = some c := by
    show (s.data ++ u.data).get? n = some c
    rw [List.get?_append hls]
    exact hs
  have h2 : (t ++ v).data.get? n = some d := by
    show (t.data ++ v.data).get? n = some d
    rw [List.get?_append hlt]
    exact ht
  rw [h] at h1
  rw [h1] at h2
  exact hcd (Option.some.injEq _ _ ▸ h2)

/-- C4: a request whose render succeeds but whose rendered string fails to
re-parse as JSON answers 500 with the "Rendered template is not valid JSON"
message carrying the parser error, the trace shows nothing was sent, and
that message is distinct from every "Template rendering failed" message
produced when rendering itself fails. -/
theorem rendered_not_json_500 (env : Env) (st : AppState) (path body : String)
    (register : WebhookRegister) (d : JValue) (rp e : String)
    (hreg : hmGet st.registers ("/" ++ path) = some register)
    (hparse : env.parseJson body = .ok d)
    (hrender : env.render register.template (json_to_template_data d) = .ok rp)
    (hvalid : env.parseJson rp = .error e) :
    handle_webhook env st path body =
      (.err 500 ⟨"Rendered template is not valid JSON: " ++ e⟩,
       ⟨some (register.template, json_to_template_data d), none⟩) ∧
    (∀ e' : String,
      "Rendered template is not valid JSON: " ++ e ≠ "Template rendering failed: " ++ e') := by
  constructor
  · simp only [handle_webhook, hreg, hparse, hrender, hvalid]
  · intro e'
    exact append_ne_of_data_get 0 'R' 'T' _ _ _ _ (by decide) (by decide) (by decide)

/-- A concrete environment whose parser accepts only the body "42" and whose
renderer outputs non-JSON text; used only by witness theorems. -/
def envBadRender : Env :=
  { parseJson := fun s => if s = "42" then .ok (.num 42) else .error "expected value",
    render := fun _ _ => .ok "oops",
    send := fun _ => .error "no" }

/-- Witness for C4: body "42" parses, the renderer produces "oops", which
fails to parse. -/
theorem rendered_not_json_500_witness :
    handle_webhook envBadRender (AppState.new [regA]) "a" "42" =
      (.err 500 ⟨"Rendered template is not valid JSON: expected value"⟩,
       ⟨some ("template_0", [("data", .num 42)]), none⟩) :=
  (rendered_not_json_500 envBadRender (AppState.new [regA]) "a" "42"
    { regA with template := "template_0" } (.num 42) "oops" "expected value"
    rfl rfl rfl rfl).1

/-- C1: whenever the outbound send returns an HTTP response, of any status
code, whose body text is read successfully, the handler answers 200 with the
success envelope: field "status" = "success" and field "target_response" =
the upstream text parsed as JSON when it parses, the raw text wrapped as a
JSON string otherwise. No upstream response is treated as an error. -/
theorem success_envelope_200 (env : Env) (st : AppState) (path body : String)
    (register : WebhookRegister) (d : JValue) (rp : String) (pj : JValue)
    (code : Nat) (tx : Except String String) (t : String)
    (hreg : hmGet st.registers ("/" ++ path) = some register)
    (hparse : env.parseJson body = .ok d)
    (hrender : env.render register.template (json_to_template_data d) = .ok rp)
    (hvalid : env.parseJson rp = .ok pj)
    (hM : to_uppercase register.target.method = "GET" ∨
          to_uppercase register.target.method = "POST" ∨
          to_uppercase register.target.method = "PUT" ∨
          to_uppercase register.target.method = "DELETE" ∨
          to_uppercase register.target.method = "PATCH")
    (hsend : env.send ⟨to_uppercase register.target.method, register.target.url,
        [("Content-Type", "application/json")], pj⟩ = .ok ⟨code, tx⟩)
    (htext : tx = .ok t) :
    handle_webhook env st path body =
      (.ok (.obj [("status", .str "success"),
                  ("target_response",
                    match env.parseJson t with
                    | .ok v => v
                    | .error _ => .str t)]),
       ⟨some (register.template, json_to_template_data d),
        some ⟨to_uppercase register.target.method, register.target.url,
              [("Content-Type", "application/json")], pj⟩⟩) ∧
    (handle_webhook env st path body).1.statusCode = 200 := by
  subst htext
  have hmain : handle_webhook env st path body =
      (.ok (.obj [("status", .str "success"),
                  ("target_response",
                    match env.parseJson t with
                    | .ok v => v
                    | .error _ => .str t)]),
       ⟨some (register.template, json_to_template_data d),
        some ⟨to_uppercase register.target.method, register.target.url,
              [("Content-Type", "application/json")], pj⟩⟩) := by
    simp only [handle_webhook, hreg, hparse, hrender, hvalid, if_pos hM, hsend]
  refine ⟨hmain, ?_⟩
  rw [hmain]
  rfl

/-- Witness for C1: upstream answers with body text "done", which fails to
parse in envOk's world view, so it is relayed as a JSON string. -/
theorem success_envelope_200_witness :
    handle_webhook envOk (AppState.new [regA]) "a" "42" =
      (.ok (.obj [("status", .str "success"), ("target_response", .obj [])]),
       ⟨some ("template_0", json_to_template_data (.obj [])),
        some ⟨to_uppercase "post", "http://t",
              [("Content-Type", "application/json")], .obj []⟩⟩) :=
  (success_envelope_200 envOk (AppState.new [regA]) "a" "42"
    { regA with template := "template_0" } (.obj []) "1" (.obj [])
    200 (.ok "done") "done" rfl rfl rfl rfl (by decide) rfl rfl).1

/-- C10: with the outbound request sent and an upstream response received,
a failure to read the response body answers 500 with the "Failed to read
response" message; a failure of the send itself answers 500 with the
"Failed to send request to target" message; and the two messages are
distinct whatever the attached error texts. -/
theorem read_response_failure_500 (env : Env) (st : AppState) (path body : String)
    (register : WebhookRegister) (d : JValue) (rp : String) (pj : JValue)
    (hreg : hmGet st.registers ("/" ++ path) = some register)
    (hparse : env.parseJson body = .ok d)
    (hrender : env.render register.template (json_to_template_data d) = .ok rp)
    (hvalid : env.parseJson rp = .ok pj)
    (hM : to_uppercase register.target.method = "GET" ∨
          to_uppercase register.target.method = "POST" ∨
          to_uppercase register.target.method = "PUT" ∨
          to_uppercase register.target.method = "DELETE" ∨
          to_uppercase register.target.method = "PATCH") :
    (∀ (code : Nat) (tx : Except String String) (e : String),
      env.send ⟨to_uppercase register.target.method, register.target.url,
        [("Content-Type", "application/json")], pj⟩ = .ok ⟨code, tx⟩ →
      tx = .error e →
      handle_webhook env st path body =
        (.err 500 ⟨"Failed to read response: " ++ e⟩,
         ⟨some (register.template, json_to_template_data d),
          some ⟨to_uppercase register.target.method, register.target.url,
                [("Content-Type", "application/json")], pj⟩⟩)) ∧
    (∀ e : String,
      env.send ⟨to_uppercase register.target.method, register.target.url,
        [("Content-Type", "application/json")], pj⟩ = .error e →
      handle_webhook env st path body =
        (.err 500 ⟨"Failed to send request to target: " ++ e⟩,
         ⟨some (register.template, json_to_template_data d),
          some ⟨to_uppercase register.target.method, register.target.url,
                [("Content-Type", "application/json")], pj⟩⟩)) ∧
    (∀ e e' : String,
      "Failed to read response: " ++ e ≠ "Failed to send request to target: " ++ e') := by
  refine ⟨?_, ?_, ?_⟩
  · intro code tx e hsend htext
    subst htext
    simp only [handle_webhook, hreg, hparse, hrender, hvalid, if_pos hM, hsend]
  · intro e hsend
    simp only [handle_webhook, hreg, hparse, hrender, hvalid, if_pos hM, hsend]
  · intro e e'
    exact append_ne_of_data_get 10 'r' 's' _ _ _ _ (by decide) (by decide) (by decide)

/-- A concrete environment whose send succeeds but whose response body read
fails; used only by witness theorems. -/
def envReadFail : Env :=
  { parseJson := fun _ => .ok (.obj []),
    render := fun _ _ => .ok "1",
    send := fun _ => .ok ⟨200, .error "eof"⟩ }

/-- Witness for C10: the upstream response arrives but its body read fails
with "eof". -/
theorem read_response_failure_500_witness :
    handle_webhook envReadFail (AppState.new [regA]) "a" "42" =
      (.err 500 ⟨"Failed to read response: eof"⟩,
       ⟨some ("template_0", json_to_template_data (.obj [])),
        some ⟨to_uppercase "post", "http://t",
              [("Content-Type", "application/json")], .obj []⟩⟩) :=
  (read_response_failure_500 envReadFail (AppState.new [regA]) "a" "42"
    { regA with template := "template_0" } (.obj []) "1" (.obj [])
    rfl rfl rfl rfl (by decide)).1 200 (.error "eof") "eof" rfl rfl

/-- The AppState with every registered rule's Target.headers map replaced by
`hs`; used to state that the configured headers have no effect. -/
def setAllHeaders (hs : List (String × String)) (st : AppState) : AppState :=
  { st with registers := st.registers.map (fun p =>
      (p.1, { p.2 with target := { p.2.target with headers := hs } })) }

theorem hmGet_map_headers (hs : List (String × String))
    (m : List (String × WebhookRegister)) (k : String) :
    hmGet (m.map (fun p =>
        (p.1, { p.2 with target := { p.2.target with headers := hs } }))) k =
      (hmGet m k).map (fun r => { r with target := { r.target with headers := hs } }) := by
  induction m with
  | nil => simp [hmGet]
  | cons p rest ih =>
    obtain ⟨k', v⟩ := p
    by_cases h : k' = k <;> simp [hmGet, h, ih]

/-- C8: every outbound request recorded by a handler run carries exactly the
single header Content-Type: application/json; its body is the validated
JSON payload and its URL the configured target URL; and replacing the
configured Target.headers of every rule by an arbitrary map leaves the whole
handler behavior unchanged, so the configured headers have no effect. -/
theorem outbound_headers_fixed :
    (∀ (env : Env) (st : AppState) (path body : String) (req : OutboundRequest),
      (handle_webhook env st path body).2.sent = some req →
      req.headers = [("Content-Type", "application/json")]) ∧
    (∀ (env : Env) (st : AppState) (path body : String)
      (register : WebhookRegister) (d : JValue) (rp : String) (pj : JValue)
      (req : OutboundRequest),
      hmGet st.registers ("/" ++ path) = some register →
      env.parseJson body = .ok d →
      env.render register.template (json_to_template_data d) = .ok rp →
      env.parseJson rp = .ok pj →
      (handle_webhook env st path body).2.sent = some req →
      req.body = pj ∧ req.url = register.target.url) ∧
    (∀ (env : Env) (st : AppState) (path body : String) (hs : List (String × String)),
      handle_webhook env (setAllHeaders hs st) path body =
        handle_webhook env st path body) := by
  have hsent : ∀ (env : Env) (st : AppState) (path body : String) (req : OutboundRequest),
      (handle_webhook env st path body).2.sent = some req →
      ∃ (register : WebhookRegister) (d : JValue) (rp : String) (pj : JValue),
        hmGet st.registers ("/" ++ path) = some register ∧
        env.parseJson body = .ok d ∧
        env.render register.template (json_to_template_data d) = .ok rp ∧
        env.parseJson rp = .ok pj ∧
        req = ⟨to_uppercase register.target.method, register.target.url,
               [("Content-Type", "application/json")], pj⟩ := by
    intro env st path body req h
    cases hg : hmGet st.registers ("/" ++ path) with
    | none => simp [handle_webhook, hg] at h
    | some register =>
      cases hp : env.parseJson body with
      | error e => simp [handle_webhook, hg, hp] at h
      | ok d =>
        cases hr : env.render register.template (json_to_template_data d) with
        | error e => simp [handle_webhook, hg, hp, hr] at h
        | ok rp =>
          cases hv : env.parseJson rp with
          | error e => simp [handle_webhook, hg, hp, hr, hv] at h
          | ok pj =>
            refine ⟨register, d, rp, pj, rfl, rfl, hr, hv, ?_⟩
            by_cases hM : (to_uppercase register.target.method = "GET" ∨
                to_uppercase register.target.method = "POST" ∨
                to_uppercase register.target.method = "PUT" ∨
                to_uppercase register.target.method = "DELETE" ∨
                to_uppercase register.target.method = "PATCH")
            · have htr : (handle_webhook env st path body).2.sent =
                  some ⟨to_uppercase register.target.method, register.target.url,
                        [("Content-Type", "application/json")], pj⟩ := by
                simp only [handle_webhook, hg, hp, hr, hv, if_pos hM]
                cases hsd : env.send ⟨to_uppercase register.target.method,
                    register.target.url, [("Content-Type", "application/json")], pj⟩ with
                | error e => simp [hsd]
                | ok response =>
                  cases htx : response.text with
                  | error e => simp [hsd, htx]
                  | ok t => simp [hsd, htx]
              rw [htr] at h
              simpa using h.symm
            · simp only [handle_webhook, hg, hp, hr, hv, if_neg hM] at h
              simp at h
  refine ⟨?_, ?_, ?_⟩
  · intro env st path body req h
    obtain ⟨register, d, rp, pj, _, _, _, _, hreq⟩ := hsent env st path body req h
    rw [hreq]
  · intro env st path body register d rp pj req hg hp hr hv h
    obtain ⟨register', d', rp', pj', hg', hp', hr', hv', hreq⟩ := hsent env st path body req h
    rw [hg] at hg'
    obtain rfl : register = register' := by simpa using hg'
    rw [hp] at hp'
    obtain rfl : d = d' := by simpa using hp'
    rw [hr] at hr'
    obtain rfl : rp = rp' := by simpa using hr'
    rw [hv] at hv'
    obtain rfl : pj = pj' := by simpa using hv'
    rw [hreq]
    exact ⟨rfl, rfl⟩
  · intro env st path body hs
    simp only [handle_webhook, setAllHeaders]
    rw [hmGet_map_headers]
    cases hg : hmGet st.registers ("/" ++ path) with
    | none => simp
    | some register => simp

/-- The outbound request issued in the witness scenario: verb "POST" from
the lower-case configured "post", the configured URL, the fixed
Content-Type header, and the validated payload. -/
def reqW : OutboundRequest :=
  ⟨"POST", "http://t", [("Content-Type", "application/json")], .obj []⟩

/-- Witness for C8: the concrete run sends exactly reqW, whose header list
is the single Content-Type entry. -/
theorem outbound_headers_fixed_witness :
    (handle_webhook envOk (AppState.new [regA]) "a" "42").2.sent = some reqW ∧
    reqW.headers = [("Content-Type", "application/json")] :=
  ⟨rfl, outbound_headers_fixed.1 envOk (AppState.new [regA]) "a" "42" reqW rfl⟩

/-- C9: the key the handler looks up is "/" prepended to the captured
wildcard segment, so any rule returned by the lookup has an endpoint equal
to "/" ++ path (hence starting with "/"); consequently a configured rule
whose endpoint does not start with "/" is never the one matched, for any
request path. -/
theorem lookup_key_slash :
    (∀ (regs : List WebhookRegister) (path : String) (r : WebhookRegister),
      hmGet (AppState.new regs).registers ("/" ++ path) = some r →
      r.endpoint = "/" ++ path ∧ ∃ q, r.endpoint = "/" ++ q) ∧
    (∀ (regs : List WebhookRegister) (r0 : WebhookRegister), r0 ∈ regs →
      (¬ ∃ q, r0.endpoint = "/" ++ q) →
      ∀ (path : String) (r : WebhookRegister),
        hmGet (AppState.new regs).registers ("/" ++ path) = some r →
        r.endpoint ≠ r0.endpoint) := by
  have key : ∀ (regs : List WebhookRegister) (path : String) (r : WebhookRegister),
      hmGet (AppState.new regs).registers ("/" ++ path) = some r →
      r.endpoint = "/" ++ path := by
    intro regs path r h
    rw [AppState.new, buildState_get] at h
    cases hfl : findLastIdx ("/" ++ path) regs 0 with
    | none =>
      rw [hfl] at h
      simp [hmGet] at h
    | some p =>
      rw [hfl] at h
      obtain rfl : withTemplateName p = r := by simpa using h
      have hpe := findLastIdx_endpoint _ _ _ _ hfl
      simpa [withTemplateName] using hpe
  refine ⟨fun regs path r h => ⟨key regs path r h, path, key regs path r h⟩, ?_⟩
  intro regs r0 _ hslash path r h heq
  exact hslash ⟨path, heq ▸ key regs path r h⟩

/-- A second concrete rule sharing endpoint "/a" with regA but carrying a
different target; used only by witness theorems. -/
def regA2 : WebhookRegister :=
  { endpoint := "/a", method := "POST",
    target := { url := "http://t2", method := "put", headers := [],
                timeout_seconds := none },
    template := "T2", retry_config := none }

/-- Witness for C7: with two rules sharing endpoint "/a", the registry entry
is the second (index 1) registration, renamed to its template name. -/
theorem registry_last_wins_witness :
    hmGet (AppState.new [regA, regA2]).registers regA.endpoint =
      some { regA2 with template := "template_" ++ toString 1 } :=
  registry_last_wins.2.2 regA regA2 rfl

/-- Witness for C9: the rule registered at "/a" is looked up under the key
"/" ++ "a" and its endpoint carries the leading slash. -/
theorem lookup_key_slash_witness :
    ({ regA with template := "template_0" } : WebhookRegister).endpoint = "/" ++ "a" ∧
    ∃ q, ({ regA with template := "template_0" } : WebhookRegister).endpoint = "/" ++ q :=
  lookup_key_slash.1 [regA] "a" { regA with template := "template_0" } rfl

end Hermes
